import Mathlib

/-!
# Shallow embedding of the nebenkosten-monitor billing core

This file embeds the consumption-accrual and billing logic of the
ioBroker.nebenkosten-monitor adapter in Lean 4 and proves the spec claims
about it.

Embedding conventions:
* JavaScript numbers are modelled by `ℚ`.  `NaN` / `Infinity` and non-number
  values are outside the embedded domain; `typeof x !== 'number'` guards are
  therefore vacuous and noted where they occur in the source.
* `Math.round` rounds half away from zero towards `+∞` (`⌊x + 1/2⌋`), which is
  exactly JavaScript's behaviour on ties.
* The state store (`getStateAsync` / `setStateAsync`) is modelled by a record
  `UState` holding one channel's slice of the store; a write is a record
  update.  Numeric states read with `typeof val === 'number' ? val : 0` are
  plain `ℚ` fields; states whose null case matters are `Option ℚ`.
* The flat `${configType}X` configuration keys are modelled as the fields of a
  per-channel record `Config`.  JavaScript's `cfg || default` (which replaces
  `undefined`, `0` and `NaN` by the default) is `jsOr` for numeric fields; an
  absent string key is `Option.none`.
* Wall-clock access (`new Date()`, `Date.now()`) is passed in explicitly as a
  `Clock`.  Millisecond timestamps that the source only ever turns back into
  calendar dates are modelled by the calendar date itself.
-/

/-- JavaScript `Math.round`: round half towards `+∞`. -/
def jsRound (x : ℚ) : ℤ := ⌊x + 1/2⌋

/-- Source `calculator.roundToDecimals(value, decimals)`:
`Math.round(value * 10^d) / 10^d`. -/
def roundToDecimals (value : ℚ) (decimals : ℕ) : ℚ :=
  (jsRound (value * 10 ^ decimals) : ℚ) / 10 ^ decimals

/-- JavaScript `x || d` on numbers: `0` (and `undefined`/`NaN`, outside the
embedded domain) falls back to the default. -/
def jsOr (x d : ℚ) : ℚ := if x = 0 then d else x

/-- JavaScript `p || 0` for an optional numeric argument. -/
def jsOr0 (p : Option ℚ) : ℚ :=
  match p with
  | none => 0
  | some x => x

/-- Source `calculator.convertGasM3ToKWh(m3, brennwert, zZahl)`.  The `typeof`
guard is vacuous over `ℚ`; the range guard throws a `RangeError`. -/
def convertGasM3ToKWh (m3 brennwert zZahl : ℚ) : Except String ℚ :=
  if m3 < 0 ∨ brennwert ≤ 0 ∨ zZahl ≤ 0 ∨ 1 < zZahl then
    .error "RangeError: Invalid parameter values"
  else
    .ok (m3 * brennwert * zZahl)

/-- Source `calculator.calculateCost(consumption, price)`.  The `typeof` part of the
guard is vacuous over `ℚ`; a missing `price` argument is `none`. -/
def calculateCost (consumption : ℚ) (price : Option ℚ) : Except String ℚ :=
  if consumption < 0 then
    .error "TypeError: Consumption must be a non-negative number"
  else
    .ok (consumption * jsOr0 price)

/-- A calendar date as JavaScript exposes it: `getFullYear`, `getMonth`
(0-indexed) and `getDate`. -/
structure GDate where
  year : ℤ
  month : ℤ
  day : ℤ
  deriving DecidableEq, Repr

/-- Constructor `new Date(year, month, day, 12, 0, 0)`: out-of-range months roll over into
the year.  Day-of-month overflow (e.g. `"31.02."`) and the constructor's
two-digit-year quirk are not modelled; the embedded dates stay inside plain
month arithmetic, which is all the source consumes. -/
def mkJSDate (year month day : ℤ) : GDate :=
  let t := year * 12 + month
  ⟨t.fdiv 12, t.emod 12, day⟩

/-- Leading JavaScript whitespace for `trim` / `parseInt`. -/
def jsIsWhitespace (c : Char) : Bool :=
  c = ' ' ∨ c = '\t' ∨ c = '\n' ∨ c = '\r'

/-- Digit run at the front of a character list, as `parseInt` consumes it. -/
def digitsPrefixVal : List Char → Option ℕ
  | [] => none
  | c :: cs =>
    if c.isDigit then
      some ((c :: cs).takeWhile Char.isDigit |>.foldl
        (fun acc d => acc * 10 + (d.toNat - '0'.toNat)) 0)
    else none

/-- JavaScript `parseInt(str, 10)`: skip leading whitespace, optional sign,
then the longest digit prefix; `NaN` (here `none`) when no digit follows. -/
def parseIntJS (cs : List Char) : Option ℤ :=
  match cs.dropWhile jsIsWhitespace with
  | '-' :: rest => (digitsPrefixVal rest).map (fun n => -(n : ℤ))
  | '+' :: rest => (digitsPrefixVal rest).map (fun n => (n : ℤ))
  | rest => (digitsPrefixVal rest).map (fun n => (n : ℤ))

/-- JavaScript `String.prototype.trim` on a character list. -/
def jsTrim (cs : List Char) : List Char :=
  ((cs.dropWhile jsIsWhitespace).reverse.dropWhile jsIsWhitespace).reverse

/-- Source `calculator.parseGermanDate(dateStr)`: parse `DD.MM.YYYY` (2-digit years
map to 20xx), `none` on malformed input.  The midday fix only guards against
timezone shifts and has no counterpart in the calendar model. -/
def parseGermanDate (s : String) : Option GDate :=
  if s.isEmpty then none
  else
    match (jsTrim s.toList).splitOn '.' with
    | [p0, p1, p2] =>
      match parseIntJS p0, (parseIntJS p1).map (· - 1), parseIntJS p2 with
      | some day, some month, some year =>
        some (mkJSDate (if year < 100 then year + 2000 else year) month day)
      | _, _, _ => none
    | _ => none

/-- The three built-in utility channels. -/
inductive UType where
  | gas
  | water
  | electricity
  deriving DecidableEq, Repr

/-- One channel's flat `${configType}X` configuration record.  String-keyed
lookups in the source become field accesses; `none` is an unset key.  A
configured HT window time `"HH:MM"` is represented by its parsed
`(hours, minutes)` pair (`"HH"` alone would parse with minutes `0`); `none`
covers the unset/empty strings the source treats as falsy. -/
structure Config where
  offset : ℚ
  gasBrennwert : ℚ
  gasZahl : ℚ
  preis : ℚ
  grundgebuehr : ℚ
  jahresgebuehr : ℚ
  abschlag : ℚ
  initialReading : ℚ
  htNtEnabled : Bool
  htStart : Option (ℤ × ℤ)
  htEnd : Option (ℤ × ℤ)
  htPrice : ℚ
  ntPrice : ℚ
  contractStart : Option String
  aktiv : Bool
  deriving Repr

/-- JavaScript truthiness of an optional string (`undefined` and `""` are
falsy). -/
def truthyStr : Option String → Bool
  | none => false
  | some s => !s.isEmpty

/-- The wall clock, passed explicitly: `new Date()` split into the calendar
date, the minutes-since-midnight used by the tariff check, and `Date.now()`
in milliseconds. -/
structure Clock where
  date : GDate
  minutesOfDay : ℤ
  ms : ℤ
  deriving Repr

/-- Effective calorific value: `this.config.gasBrennwert || 11.5`. -/
def effBrennwert (cfg : Config) : ℚ := jsOr cfg.gasBrennwert (23/2)

/-- Effective state number: `this.config.gasZahl || 0.95`. -/
def effZahl (cfg : Config) : ℚ := jsOr cfg.gasZahl (19/20)

/-- Source `calculator.isHTTime(config, type)`: the `${type}HtStart/.HtEnd` lookups
are the `Config` fields; the current time is the explicit
minutes-since-midnight argument. -/
def isHTTime (cfg : Config) (nowMinutes : ℤ) : Bool :=
  if !cfg.htNtEnabled then true
  else
    match cfg.htStart, cfg.htEnd with
    | some (startH, startM), some (endH, endM) =>
      let startTimeMinutes := startH * 60 + startM
      let endTimeMinutes := endH * 60 + endM
      if startTimeMinutes ≤ endTimeMinutes then
        nowMinutes ≥ startTimeMinutes ∧ nowMinutes < endTimeMinutes
      else
        nowMinutes ≥ startTimeMinutes ∨ nowMinutes < endTimeMinutes
    | _, _ => true

/-- One archived `history.{year}.*` snapshot written by `closeBillingPeriod`:
the HT/NT and volume members exist only for the configurations that write
them. -/
structure HistoryEntry where
  yearly : ℚ
  yearlyHT : Option ℚ
  yearlyNT : Option ℚ
  yearlyVolume : Option ℚ
  totalYearly : ℚ
  balance : ℚ
  deriving DecidableEq, Repr

/-- One channel's slice of the state store plus the in-memory
`lastSensorValues[sensorDP]` cache.  Numeric states read back with
`typeof val === 'number' ? val : 0` (or `?.val || 0`) are plain `ℚ` fields;
`endReading` and `lastYearStart` keep their null case because the source
branches on it.  `lastYearStart` is the calendar date of the stored
millisecond timestamp (only year/month/day are ever consumed). -/
structure UState where
  daily : ℚ
  monthly : ℚ
  yearly : ℚ
  dailyVolume : ℚ
  monthlyVolume : ℚ
  yearlyVolume : ℚ
  dailyHT : ℚ
  dailyNT : ℚ
  monthlyHT : ℚ
  monthlyNT : ℚ
  yearlyHT : ℚ
  yearlyNT : ℚ
  meterReading : ℚ
  meterReadingVolume : ℚ
  adjustment : ℚ
  lastYearStart : Option GDate
  costDaily : ℚ
  costMonthly : ℚ
  costYearly : ℚ
  costTotalYearly : ℚ
  costAnnualFee : ℚ
  costBasicCharge : ℚ
  costPaidTotal : ℚ
  costBalance : ℚ
  costDailyHT : ℚ
  costDailyNT : ℚ
  costMonthlyHT : ℚ
  costMonthlyNT : ℚ
  costYearlyHT : ℚ
  costYearlyNT : ℚ
  endReading : Option ℚ
  closePeriod : Bool
  newInitialReading : ℚ
  notificationSent : Bool
  notificationChangeSent : Bool
  history : List (ℤ × HistoryEntry)
  lastUpdate : ℤ
  lastSync : ℤ
  lastSensorValue : Option ℚ

/-- Source `BillingManager.updateCosts` lines 134–156: months since the anchor.
When a contract start date is configured (truthy) and parses, the anchor is
the contract start; otherwise the fallback anchor is the stored
`lastYearStart` (or `Date.now()` when that state is unset). -/
def bmMonthsSinceContract (cfg : Config) (clk : Clock) (s : UState) : ℤ :=
  let fromContract : Option ℤ :=
    if truthyStr cfg.contractStart then
      match parseGermanDate (cfg.contractStart.getD "") with
      | some contractStart =>
        some (max 1 ((clk.date.year - contractStart.year) * 12 +
          (clk.date.month - contractStart.month) + 1))
      | none => none
    else none
  match fromContract with
  | some m => m
  | none =>
    let yearStart := s.lastYearStart.getD clk.date
    max 1 ((clk.date.year - yearStart.year) * 12 + (clk.date.month - yearStart.month) + 1)

/-- Source `main.js updateCosts` lines 565–596: same computation, but a configured yet
unparseable contract date yields `null` (`none`) instead of falling back. -/
def mainMonthsSinceContract (cfg : Config) (clk : Clock) (s : UState) : Option ℤ :=
  if truthyStr cfg.contractStart then
    match parseGermanDate (cfg.contractStart.getD "") with
    | some contractStart =>
      some (max 1 ((clk.date.year - contractStart.year) * 12 +
        (clk.date.month - contractStart.month) + 1))
    | none => none
  else
    let yearStart := s.lastYearStart.getD clk.date
    some (max 1 ((clk.date.year - yearStart.year) * 12 + (clk.date.month - yearStart.month) + 1))

/-- The consumption-cost block shared verbatim by `BillingManager.updateCosts`
(lines 69–131) and `main.js updateCosts` (lines 493–559): returns the
daily/monthly/yearly consumption costs and the state with the HT/NT cost
states written (HT/NT mode), or computes the flat-tariff costs through
`calculateCost` (which throws on negative consumption). -/
def consumptionCosts (ty : UType) (cfg : Config) (s : UState)
    (daily monthly yearly adjustment : ℚ) : Except String (ℚ × ℚ × ℚ × UState) :=
  if cfg.htNtEnabled then
    let htPrice := cfg.htPrice
    let ntPrice := cfg.ntPrice
    let yearlyHTE : Except String ℚ :=
      if adjustment ≠ 0 then
        match ty with
        | .gas =>
          (convertGasM3ToKWh adjustment (effBrennwert cfg) (effZahl cfg)).map
            (fun e => s.yearlyHT + e)
        | _ => .ok (s.yearlyHT + adjustment)
      else .ok s.yearlyHT
    match yearlyHTE with
    | .error e => .error e
    | .ok yearlyHT =>
      .ok (s.dailyHT * htPrice + s.dailyNT * ntPrice,
        s.monthlyHT * htPrice + s.monthlyNT * ntPrice,
        yearlyHT * htPrice + s.yearlyNT * ntPrice,
        { s with
          costDailyHT := roundToDecimals (s.dailyHT * htPrice) 2,
          costDailyNT := roundToDecimals (s.dailyNT * ntPrice) 2,
          costMonthlyHT := roundToDecimals (s.monthlyHT * htPrice) 2,
          costMonthlyNT := roundToDecimals (s.monthlyNT * ntPrice) 2,
          costYearlyHT := roundToDecimals (yearlyHT * htPrice) 2,
          costYearlyNT := roundToDecimals (s.yearlyNT * ntPrice) 2 })
  else
    match calculateCost daily (some cfg.preis) with
    | .error e => .error e
    | .ok dailyC =>
      match calculateCost monthly (some cfg.preis) with
      | .error e => .error e
      | .ok monthlyC =>
        match calculateCost yearly (some cfg.preis) with
        | .error e => .error e
        | .ok yearlyC => .ok (dailyC, monthlyC, yearlyC, s)

/-- Manual-adjustment fold into the yearly figure, shared by both `updateCosts`
versions: for gas the adjustment is added in m³ to `yearlyVolume` and the sum
re-converted to kWh (which throws on out-of-range totals). -/
def yearlyWithAdjustment (ty : UType) (cfg : Config) (s : UState) : Except String ℚ :=
  if s.adjustment ≠ 0 then
    match ty with
    | .gas => convertGasM3ToKWh (s.yearlyVolume + s.adjustment) (effBrennwert cfg) (effZahl cfg)
    | _ => .ok (s.yearly + s.adjustment)
  else .ok s.yearly

/-- Source `BillingManager.updateCosts(type)` (src/lib/billingManager.js lines
22–208). -/
def updateCosts (ty : UType) (cfg : Config) (clk : Clock) (s : UState) :
    Except String UState :=
  if cfg.preis = 0 ∧ cfg.htNtEnabled = false then .ok s
  else
    match yearlyWithAdjustment ty cfg s with
    | .error e => .error e
    | .ok yearly =>
      match consumptionCosts ty cfg s s.daily s.monthly yearly s.adjustment with
      | .error e => .error e
      | .ok (dailyC, monthlyC, yearlyC, s1) =>
        let monthsSinceContract := bmMonthsSinceContract cfg clk s
        let basicChargeAccumulated := cfg.grundgebuehr * (monthsSinceContract : ℚ)
        let annualFeeAccumulated := (cfg.jahresgebuehr / 12) * (monthsSinceContract : ℚ)
        let totalFixCostsAccumulated := basicChargeAccumulated + annualFeeAccumulated
        let totalYearlyCost := yearlyC + totalFixCostsAccumulated
        let s2 := { s1 with
          costDaily := roundToDecimals dailyC 2,
          costMonthly := roundToDecimals monthlyC 2,
          costYearly := roundToDecimals yearlyC 2,
          costTotalYearly := roundToDecimals totalYearlyCost 2,
          costAnnualFee := roundToDecimals annualFeeAccumulated 2,
          costBasicCharge := roundToDecimals totalFixCostsAccumulated 2 }
        if 0 < cfg.abschlag then
          let paidTotal := cfg.abschlag * (monthsSinceContract : ℚ)
          let balance := totalYearlyCost - paidTotal
          .ok { s2 with
            costPaidTotal := roundToDecimals paidTotal 2,
            costBalance := roundToDecimals balance 2 }
        else
          .ok { s2 with costPaidTotal := 0, costBalance := 0 }

/-- Source `main.js updateCosts(type)` (lines 437–652), the version invoked from
`handleSensorUpdate`: skips on `price === 0` alone, and a configured but
unparseable contract date makes `monthsSinceContract` null (fixed costs use
`0` months and the Abschlag branch is skipped). -/
def mainUpdateCosts (ty : UType) (cfg : Config) (clk : Clock) (s : UState) :
    Except String UState :=
  if cfg.preis = 0 then .ok s
  else
    match yearlyWithAdjustment ty cfg s with
    | .error e => .error e
    | .ok yearly =>
      match consumptionCosts ty cfg s s.daily s.monthly yearly s.adjustment with
      | .error e => .error e
      | .ok (dailyC, monthlyC, yearlyC, s1) =>
        let monthsOpt := mainMonthsSinceContract cfg clk s
        let months0 : ℚ := ((monthsOpt.getD 0 : ℤ) : ℚ)
        let basicChargeAccumulated := cfg.grundgebuehr * months0
        let annualFeeAccumulated := (cfg.jahresgebuehr / 12) * months0
        let totalFixCostsAccumulated := basicChargeAccumulated + annualFeeAccumulated
        let totalYearlyCost := yearlyC + totalFixCostsAccumulated
        let s2 := { s1 with
          costDaily := roundToDecimals dailyC 2,
          costMonthly := roundToDecimals monthlyC 2,
          costYearly := roundToDecimals yearlyC 2,
          costTotalYearly := roundToDecimals totalYearlyCost 2,
          costAnnualFee := roundToDecimals annualFeeAccumulated 2,
          costBasicCharge := roundToDecimals totalFixCostsAccumulated 2 }
        if 0 < cfg.abschlag ∧ monthsOpt.isSome then
          let paidTotal := cfg.abschlag * months0
          let balance := totalYearlyCost - paidTotal
          .ok { s2 with
            costPaidTotal := roundToDecimals paidTotal 2,
            costBalance := roundToDecimals balance 2 }
        else
          .ok { s2 with costPaidTotal := 0, costBalance := 0 }

/-- Offset correction (`main.js handleSensorUpdate` lines 251–256):
`consumption = value - offset` (the `offset !== 0` guard only avoids a debug
log). -/
def correctedValue (cfg : Config) (value : ℚ) : ℚ :=
  if cfg.offset ≠ 0 then value - cfg.offset else value

/-- The corrected energy value persisted as the meter reading: for gas the
offset-corrected m³ value is converted to kWh (which can throw) and rounded to
2 decimals; otherwise the corrected value itself. -/
def sensorEnergy (ty : UType) (cfg : Config) (value : ℚ) : Except String ℚ :=
  match ty with
  | .gas =>
    (convertGasM3ToKWh (correctedValue cfg value) (effBrennwert cfg) (effZahl cfg)).map
      (fun e => roundToDecimals e 2)
  | _ => .ok (correctedValue cfg value)

/-- The state after the meter-reading writes and the cache update
(`main.js handleSensorUpdate` lines 267, 279, 285), before any delta logic. -/
def preCostState (ty : UType) (cfg : Config) (s : UState) (value energy : ℚ) : UState :=
  match ty with
  | .gas =>
    { s with
      meterReadingVolume := correctedValue cfg value,
      meterReading := energy,
      lastSensorValue := some energy }
  | _ => { s with meterReading := energy, lastSensorValue := some energy }

/-- Source `handleSensorUpdate(type, sensorDP, value)` (src/main.js lines 235–429).
The `typeof value !== 'number'` half of the entry guard is vacuous over `ℚ`;
an invalid value only logs a warning and returns.  The final
`consumption.lastUpdate` / `info.lastSync` writes store `Date.now()`. -/
def handleSensorUpdate (ty : UType) (cfg : Config) (clk : Clock) (s : UState)
    (value : ℚ) : Except String UState :=
  if value < 0 then .ok s
  else
    match sensorEnergy ty cfg value with
    | .error e => .error e
    | .ok energy =>
      let lastValue := s.lastSensorValue
      let s1 := preCostState ty cfg s value energy
      match lastValue with
      | none => mainUpdateCosts ty cfg clk s1
      | some last =>
        if energy ≤ last then mainUpdateCosts ty cfg clk s1
        else
          let delta := energy - last
          let s2 :=
            match ty with
            | .gas =>
              let deltaVolume := delta / (effBrennwert cfg * effZahl cfg)
              { s1 with
                dailyVolume := roundToDecimals (s1.dailyVolume + deltaVolume) 3,
                monthlyVolume := roundToDecimals (s1.monthlyVolume + deltaVolume) 3,
                yearlyVolume := roundToDecimals (s1.yearlyVolume + deltaVolume) 3 }
            | _ => s1
          let s3 := { s2 with
            daily := roundToDecimals (s2.daily + delta) 2,
            monthly := roundToDecimals (s2.monthly + delta) 2 }
          let s4 :=
            if cfg.htNtEnabled then
              if isHTTime cfg clk.minutesOfDay then
                { s3 with
                  dailyHT := roundToDecimals (s3.dailyHT + delta) 2,
                  monthlyHT := roundToDecimals (s3.monthlyHT + delta) 2,
                  yearlyHT := roundToDecimals (s3.yearlyHT + delta) 2 }
              else
                { s3 with
                  dailyNT := roundToDecimals (s3.dailyNT + delta) 2,
                  monthlyNT := roundToDecimals (s3.monthlyNT + delta) 2,
                  yearlyNT := roundToDecimals (s3.yearlyNT + delta) 2 }
            else s3
          let yearlyStepE : Except String UState :=
            if 0 < cfg.initialReading then
              match ty with
              | .gas =>
                let yearlyM3 := max 0 (correctedValue cfg value - cfg.initialReading)
                let s5 := { s4 with yearlyVolume := roundToDecimals yearlyM3 2 }
                (convertGasM3ToKWh yearlyM3 (effBrennwert cfg) (effZahl cfg)).map
                  (fun yearlyAmount => { s5 with yearly := roundToDecimals yearlyAmount 2 })
              | _ =>
                .ok { s4 with
                  yearly := roundToDecimals (max 0 (energy - cfg.initialReading)) 2 }
            else
              .ok { s4 with yearly := roundToDecimals (s4.yearly + delta) 2 }
          match yearlyStepE with
          | .error e => .error e
          | .ok s5 =>
            match mainUpdateCosts ty cfg clk s5 with
            | .error e => .error e
            | .ok s6 => .ok { s6 with lastUpdate := clk.ms, lastSync := clk.ms }

/-- Source `BillingManager.closeBillingPeriod(type)` (src/lib/billingManager.js lines
215–384).  Error logging is outside the store model; each validation-failure
path only writes `billing.closePeriod = false`.  The `history.{year}.*`
object/state writes become one `HistoryEntry` keyed by the contract-start
year (a later write for the same year shadows the earlier one, as a state
overwrite would). -/
def closeBillingPeriod (ty : UType) (cfg : Config) (s : UState) : UState :=
  let abort := { s with closePeriod := false }
  match s.endReading with
  | none => abort
  | some endReading =>
    if endReading ≤ 0 then abort
    else if !truthyStr cfg.contractStart then abort
    else
      match parseGermanDate (cfg.contractStart.getD "") with
      | none => abort
      | some startDate =>
        let year := startDate.year
        let entry : HistoryEntry :=
          { yearly := s.yearly,
            yearlyHT := if cfg.htNtEnabled then some s.yearlyHT else none,
            yearlyNT := if cfg.htNtEnabled then some s.yearlyNT else none,
            yearlyVolume := if ty = .gas ∨ ty = .water then some s.yearlyVolume else none,
            totalYearly := s.costTotalYearly,
            balance := s.costBalance }
        { s with
          history := (year, entry) :: s.history,
          newInitialReading := endReading,
          yearly := 0,
          yearlyHT := if cfg.htNtEnabled then 0 else s.yearlyHT,
          yearlyNT := if cfg.htNtEnabled then 0 else s.yearlyNT,
          yearlyVolume := if ty = .gas then 0 else s.yearlyVolume,
          costYearly := 0,
          costTotalYearly := 0,
          costBasicCharge := 0,
          costAnnualFee := 0,
          costBalance := 0,
          costPaidTotal := 0,
          closePeriod := false,
          notificationSent := false,
          notificationChangeSent := false }

/-- Source `BillingManager.resetYearlyCounters(type)` (src/lib/billingManager.js
lines 546–556): zero the yearly counters and stamp `lastYearStart` with the
current time. -/
def resetYearlyCounters (ty : UType) (clk : Clock) (s : UState) : UState :=
  { s with
    yearly := 0,
    yearlyVolume := if ty = .gas then 0 else s.yearlyVolume,
    costYearly := 0,
    notificationSent := false,
    notificationChangeSent := false,
    lastYearStart := some clk.date }

/-- The yearly-reset decision of `BillingManager.checkPeriodResets` (src/lib/
billingManager.js lines 464–484): with a stored anchor, reset when the
contract anniversary has passed this year and the anchor is from another
calendar year; without a contract date, reset on a calendar-year change.  A
configured but unparseable contract date never resets. -/
def shouldResetYearly (cfg : Config) (clk : Clock) (s : UState) : Bool :=
  match s.lastYearStart with
  | none => false
  | some lastYearStartDate =>
    if truthyStr cfg.contractStart then
      match parseGermanDate (cfg.contractStart.getD "") with
      | some contractStart =>
        let annMonth := contractStart.month
        let annDay := contractStart.day
        let isPast :=
          clk.date.month > annMonth ∨ (clk.date.month = annMonth ∧ clk.date.day ≥ annDay)
        isPast ∧ lastYearStartDate.year ≠ clk.date.year
      | none => false
    else lastYearStartDate.year ≠ clk.date.year

/-- A channel configuration with everything unset (all numeric keys 0, no
HT/NT, no contract date), used as the base of the concrete test fixtures. -/
def cfg0 : Config :=
  { offset := 0, gasBrennwert := 0, gasZahl := 0, preis := 0, grundgebuehr := 0,
    jahresgebuehr := 0, abschlag := 0, initialReading := 0, htNtEnabled := false,
    htStart := none, htEnd := none, htPrice := 0, ntPrice := 0,
    contractStart := none, aktiv := true }

/-- A channel state with all totals at zero and nothing cached. -/
def st0 : UState :=
  { daily := 0, monthly := 0, yearly := 0, dailyVolume := 0, monthlyVolume := 0,
    yearlyVolume := 0, dailyHT := 0, dailyNT := 0, monthlyHT := 0, monthlyNT := 0,
    yearlyHT := 0, yearlyNT := 0, meterReading := 0, meterReadingVolume := 0,
    adjustment := 0, lastYearStart := none, costDaily := 0, costMonthly := 0,
    costYearly := 0, costTotalYearly := 0, costAnnualFee := 0, costBasicCharge := 0,
    costPaidTotal := 0, costBalance := 0, costDailyHT := 0, costDailyNT := 0,
    costMonthlyHT := 0, costMonthlyNT := 0, costYearlyHT := 0, costYearlyNT := 0,
    endReading := none, closePeriod := false, newInitialReading := 0,
    notificationSent := false, notificationChangeSent := false, history := [],
    lastUpdate := 0, lastSync := 0, lastSensorValue := none }

/-- Wall clock at 2026-01-06 noon (months are 0-indexed, so January is 0). -/
def clk26 : Clock := { date := ⟨2026, 0, 6⟩, minutesOfDay := 720, ms := 1767697200000 }

/-- HT/NT configuration with the 22:00–06:00 window of the spec scenario. -/
def wcfg : Config :=
  { cfg0 with htNtEnabled := true, htStart := some (22, 0), htEnd := some (6, 0) }

/-- C7: `isHTTime` is true exactly on the half-open window
`[windowStart, windowEnd)` of minutes-since-midnight, with wrap-around
membership `now ≥ start ∨ now < end` when `start > end`; it is true for every
time when HT/NT is disabled or a window time is missing; and on the
22:00–06:00 window it is true at 23:30 (minute 1410) and 05:00 (minute 300)
and false at 12:00 (minute 720). -/
theorem claim_C7_isHTTime_window :
    (∀ (cfg : Config) (now sh sm eh em : ℤ), cfg.htNtEnabled = true →
      cfg.htStart = some (sh, sm) → cfg.htEnd = some (eh, em) →
      (isHTTime cfg now = true ↔
        (if sh * 60 + sm ≤ eh * 60 + em then sh * 60 + sm ≤ now ∧ now < eh * 60 + em
         else sh * 60 + sm ≤ now ∨ now < eh * 60 + em)))
    ∧ (∀ (cfg : Config) (now : ℤ),
        cfg.htNtEnabled = false ∨ cfg.htStart = none ∨ cfg.htEnd = none →
        isHTTime cfg now = true)
    ∧ isHTTime wcfg 1410 = true ∧ isHTTime wcfg 300 = true ∧ isHTTime wcfg 720 = false := by
  refine ⟨?_, ?_, by decide, by decide, by decide⟩
  · intro cfg now sh sm eh em hen hs he
    simp only [isHTTime, hen, hs, he, Bool.not_true, Bool.false_eq_true, if_false]
    split
    · simp [ge_iff_le, decide_eq_true_eq]
    · simp [ge_iff_le, decide_eq_true_eq]
  · intro cfg now h
    unfold isHTTime
    rcases h with h | h | h
    · simp [h]
    · rcases he : cfg.htEnd with _ | e <;> simp [h, he]
    · rcases hs : cfg.htStart with _ | p <;> simp [h, hs]

/-- Witness for C7: the general window rule applied at the disabled
configuration, together with the concrete wrap-around scenario values. -/
theorem claim_C7_witness :
    isHTTime cfg0 500 = true ∧ isHTTime wcfg 1410 = true :=
  ⟨claim_C7_isHTTime_window.2.1 cfg0 500 (Or.inl rfl),
    claim_C7_isHTTime_window.2.2.1⟩

/-- C8: over the embedded numeric domain, `convertGasM3ToKWh` succeeds exactly
when `m3 ≥ 0`, `brennwert > 0` and `zZahl ∈ (0, 1]`, and then returns
`m3 × brennwert × zZahl`; outside that range it rejects. -/
theorem claim_C8_gas_conversion (m3 brennwert zZahl : ℚ) :
    ((convertGasM3ToKWh m3 brennwert zZahl).isOk = true ↔
      ¬(m3 < 0 ∨ brennwert ≤ 0 ∨ zZahl ≤ 0 ∨ 1 < zZahl))
    ∧ (¬(m3 < 0 ∨ brennwert ≤ 0 ∨ zZahl ≤ 0 ∨ 1 < zZahl) →
        convertGasM3ToKWh m3 brennwert zZahl = .ok (m3 * brennwert * zZahl)) := by
  constructor
  · unfold convertGasM3ToKWh
    split <;> simp_all [Except.isOk, Except.toBool]
  · intro h
    unfold convertGasM3ToKWh
    rw [if_neg h]

/-- Witness for C8: the spec's gas scenario `66.82 m³ × 11.5 × 0.95`. -/
theorem claim_C8_witness :
    convertGasM3ToKWh (6682/100) (23/2) (19/20) = .ok ((6682/100) * (23/2) * (19/20)) :=
  (claim_C8_gas_conversion (6682/100) (23/2) (19/20)).2 (by norm_num)

/-- C10: `calculateCost` throws for negative consumption (the non-number case
lies outside the embedded domain) and otherwise returns
`consumption × price`, with a missing price treated as 0. -/
theorem claim_C10_calculateCost (consumption : ℚ) (price : Option ℚ) :
    ((calculateCost consumption price).isOk = true ↔ ¬consumption < 0)
    ∧ (¬consumption < 0 →
        calculateCost consumption price = .ok (consumption * jsOr0 price))
    ∧ (consumption < 0 →
        calculateCost consumption price =
          .error "TypeError: Consumption must be a non-negative number")
    ∧ jsOr0 none = 0 := by
  refine ⟨?_, ?_, ?_, rfl⟩
  · unfold calculateCost
    split <;> simp_all [Except.isOk, Except.toBool]
  · intro h
    unfold calculateCost
    rw [if_neg h]
  · intro h
    unfold calculateCost
    rw [if_pos h]

/-- Witness for C10: non-negative consumption with a missing price. -/
theorem claim_C10_witness :
    calculateCost 2 none = .ok (2 * jsOr0 none) :=
  (claim_C10_calculateCost 2 none).2.1 (by norm_num)

/-- C9: with no flat price configured and HT/NT disabled,
`BillingManager.updateCosts` performs no writes at all — the state (every
cost state included) is returned unchanged. -/
theorem claim_C9_no_price_skip (ty : UType) (cfg : Config) (clk : Clock) (s : UState)
    (hprice : cfg.preis = 0) (hht : cfg.htNtEnabled = false) :
    updateCosts ty cfg clk s = .ok s := by
  unfold updateCosts
  rw [if_pos ⟨hprice, hht⟩]

/-- Witness for C9 at the all-zero configuration. -/
theorem claim_C9_witness : updateCosts .gas cfg0 clk26 st0 = .ok st0 :=
  claim_C9_no_price_skip .gas cfg0 clk26 st0 rfl rfl

/-- Spec formula for the elapsed months:
`max(1, (yearNow − yearAnchor) × 12 + (monthNow − monthAnchor) + 1)`. -/
def specMonthsElapsed (anchor now : GDate) : ℤ :=
  max 1 ((now.year - anchor.year) * 12 + (now.month - anchor.month) + 1)

/-- Spec anchor selection: the parsed contract start when configured and
parseable, else the stored `lastYearStart` (defaulting to the current time
when that state was never written). -/
def specMonthsAnchor (cfg : Config) (clk : Clock) (s : UState) : GDate :=
  match
    (if truthyStr cfg.contractStart then parseGermanDate (cfg.contractStart.getD "")
     else none) with
  | some contractStart => contractStart
  | none => s.lastYearStart.getD clk.date

/-- Configuration with the spec scenario's contract start date `12.05.2025`. -/
def cfgC3 : Config := { cfg0 with contractStart := some "12.05.2025" }

/-- Counterexample for C3: for contract start `12.05.2025` evaluated on
`06.01.2026` the code computes `(2026−2025)×12 + (0−4) + 1 = 9` elapsed
months, not the `8` the claim states. -/
theorem claim_C3_counterexample :
    bmMonthsSinceContract cfgC3 clk26 st0 = 9 ∧ bmMonthsSinceContract cfgC3 clk26 st0 ≠ 8 := by
  constructor <;> decide

/-- C3 (amended): `monthsElapsed` always equals
`max(1, (yearNow−yearAnchor)×12 + (monthNow−monthAnchor) + 1)` with the anchor
being the parsed contract start when configured and parseable and the stored
`lastYearStart` otherwise; for contract start `12.05.2025` evaluated on
`06.01.2026` the result is `9` (the claim's `8` was an arithmetic slip:
`12 − 4 + 1 = 9`). -/
theorem claim_C3_monthsElapsed :
    (∀ (cfg : Config) (clk : Clock) (s : UState),
      bmMonthsSinceContract cfg clk s = specMonthsElapsed (specMonthsAnchor cfg clk s) clk.date)
    ∧ bmMonthsSinceContract cfgC3 clk26 st0 = 9 := by
  refine ⟨?_, by decide⟩
  intro cfg clk s
  unfold bmMonthsSinceContract specMonthsAnchor specMonthsElapsed
  split
  · rcases hp : parseGermanDate (cfg.contractStart.getD "") with _ | d <;> simp [hp]
  · rfl

/-- C5: any validation failure of `closeBillingPeriod` — no recorded positive
end reading, no configured contract-start date, or an unparseable one —
leaves the state unchanged except for resetting the `closePeriod` trigger
flag: no totals are touched and no history record is written. -/
theorem claim_C5_close_abort (ty : UType) (cfg : Config) (s : UState)
    (h : s.endReading = none ∨ (∃ v, s.endReading = some v ∧ v ≤ 0) ∨
      truthyStr cfg.contractStart = false ∨
      parseGermanDate (cfg.contractStart.getD "") = none) :
    closeBillingPeriod ty cfg s = { s with closePeriod := false } := by
  unfold closeBillingPeriod
  rcases h with h | ⟨v, hv, hv0⟩ | h | h
  · rw [h]
  · rw [hv]
    simp [hv0]
  · rcases he : s.endReading with _ | v
    · rfl
    · by_cases hv0 : v ≤ 0
      · simp [hv0]
      · simp [hv0, h]
  · rcases he : s.endReading with _ | v
    · rfl
    · by_cases hv0 : v ≤ 0
      · simp [hv0]
      · by_cases ht : truthyStr cfg.contractStart
        · simp [hv0, ht, h]
        · simp [hv0, ht]

/-- State fixture for the C5 scenario: a close was triggered with
`endReading = 0` while the yearly total stands at 42. -/
def stC5 : UState := { st0 with endReading := some 0, yearly := 42, closePeriod := true }

/-- Witness for C5: triggering close with `endReading = 0` resets the trigger
flag and leaves the yearly total (42) unchanged. -/
theorem claim_C5_witness :
    closeBillingPeriod .gas cfg0 stC5 = { stC5 with closePeriod := false } ∧
      (closeBillingPeriod .gas cfg0 stC5).yearly = 42 ∧
      (closeBillingPeriod .gas cfg0 stC5).closePeriod = false := by
  have h := claim_C5_close_abort .gas cfg0 stC5
    (Or.inr (Or.inl ⟨0, rfl, le_refl 0⟩))
  exact ⟨h, by rw [h]; rfl, by rw [h]⟩

/-- Manual billing-period close never touches the `lastYearStart` anchor:
every path of `closeBillingPeriod` — the three aborts and the successful
archive-and-reset — leaves it unchanged. -/
theorem closeBillingPeriod_lastYearStart (ty : UType) (cfg : Config) (s : UState) :
    (closeBillingPeriod ty cfg s).lastYearStart = s.lastYearStart := by
  unfold closeBillingPeriod
  repeat' split
  all_goals rfl

/-- State for the C6 counterexample: a valid close is triggered (end reading
500) while the yearly anchor still dates from the previous contract year
(12 May 2025). -/
def stC6 : UState :=
  { st0 with endReading := some 500, lastYearStart := some ⟨2025, 4, 12⟩, closePeriod := true }

/-- Clock for the C6 counterexample: 1 June 2026, past the 12 May contract
anniversary. -/
def clkC6 : Clock := { date := ⟨2026, 5, 1⟩, minutesOfDay := 0, ms := 0 }

/-- Counterexample for C6: a successful manual close (one history record is
written) does not stamp `lastYearStart`, so immediately afterwards — in the
same calendar year as the close — the scheduler's anniversary check still
fires and resets the yearly counters a second time.  The manual close path
is therefore not guarded by the anchor-year comparison, refuting the
claim's "idempotent … for both the manual close path and the automatic
reset path". -/
theorem claim_C6_counterexample :
    (closeBillingPeriod .gas cfgC3 stC6).history.length = 1 ∧
    (closeBillingPeriod .gas cfgC3 stC6).lastYearStart = some ⟨2025, 4, 12⟩ ∧
    shouldResetYearly cfgC3 clkC6 (closeBillingPeriod .gas cfgC3 stC6) = true := by
  have h := closeBillingPeriod_lastYearStart .gas cfgC3 stC6
  refine ⟨?_, ?_, ?_⟩
  · have hp : parseGermanDate "12.05.2025" = some ⟨2025, 4, 12⟩ := by decide
    have ht : truthyStr cfgC3.contractStart = true := by decide
    have h500 : ¬(500 : ℚ) ≤ 0 := by norm_num
    simp only [closeBillingPeriod, show stC6.endReading = some 500 from rfl,
      show cfgC3.contractStart = some "12.05.2025" from rfl, ht, hp, h500, if_false,
      Bool.not_true, if_true]
    rfl
  · rw [h]
    rfl
  · have hs : shouldResetYearly cfgC3 clkC6 (closeBillingPeriod .gas cfgC3 stC6) =
        shouldResetYearly cfgC3 clkC6 stC6 := by
      unfold shouldResetYearly
      rw [h]
    rw [hs]
    decide

/-- C6 (amended): the automatic yearly reset path is idempotent per calendar
year — `resetYearlyCounters` stamps `lastYearStart` with the current date,
and the scheduler's anniversary check (which compares the stored anchor's
year with the current year) then refuses to reset again at any later
instant of the same calendar year, in both the contract-anniversary branch
and the calendar-year fallback branch.  The manual close path does not
stamp `lastYearStart` on any of its paths and is therefore not covered by
this guard. -/
theorem claim_C6_yearly_reset_idempotent (cfg : Config) (ty : UType)
    (clk clk' : Clock) (s : UState) (hyear : clk'.date.year = clk.date.year) :
    (resetYearlyCounters ty clk s).lastYearStart = some clk.date ∧
      shouldResetYearly cfg clk' (resetYearlyCounters ty clk s) = false ∧
      (∀ (cfg2 : Config) (s2 : UState),
        (closeBillingPeriod ty cfg2 s2).lastYearStart = s2.lastYearStart) := by
  refine ⟨rfl, ?_, fun cfg2 s2 => closeBillingPeriod_lastYearStart ty cfg2 s2⟩
  simp only [shouldResetYearly, resetYearlyCounters]
  split
  · split
    · simp [hyear]
    · rfl
  · simp [hyear]

/-- Witness for C6: after the automatic reset fired on the 2026 contract
anniversary (13 May 2026), the check on 1 July 2026 does not fire again. -/
theorem claim_C6_witness :
    shouldResetYearly cfgC3 { date := ⟨2026, 6, 1⟩, minutesOfDay := 0, ms := 0 }
      (resetYearlyCounters .gas { date := ⟨2026, 4, 13⟩, minutesOfDay := 0, ms := 0 } st0) =
      false :=
  (claim_C6_yearly_reset_idempotent cfgC3 .gas
    { date := ⟨2026, 4, 13⟩, minutesOfDay := 0, ms := 0 }
    { date := ⟨2026, 6, 1⟩, minutesOfDay := 0, ms := 0 } st0 rfl).2.1

/-- The consumption-cost block writes only HT/NT cost states: every other
field survives unchanged. -/
theorem consumptionCosts_frame (ty : UType) (cfg : Config) (s : UState)
    (d m y a c1 c2 c3 : ℚ) (t : UState)
    (h : consumptionCosts ty cfg s d m y a = .ok (c1, c2, c3, t)) :
    t.daily = s.daily ∧ t.monthly = s.monthly ∧ t.yearly = s.yearly ∧
    t.dailyVolume = s.dailyVolume ∧ t.monthlyVolume = s.monthlyVolume ∧
    t.yearlyVolume = s.yearlyVolume ∧ t.dailyHT = s.dailyHT ∧ t.dailyNT = s.dailyNT ∧
    t.monthlyHT = s.monthlyHT ∧ t.monthlyNT = s.monthlyNT ∧ t.yearlyHT = s.yearlyHT ∧
    t.yearlyNT = s.yearlyNT ∧ t.lastSensorValue = s.lastSensorValue ∧
    t.meterReading = s.meterReading ∧ t.meterReadingVolume = s.meterReadingVolume := by
  simp only [consumptionCosts] at h
  repeat' split at h
  all_goals
    first
      | exact Except.noConfusion h
      | (simp only [Except.ok.injEq, Prod.mk.injEq] at h
         obtain ⟨-, -, -, ht⟩ := h
         subst ht
         simp)

/-- Source `main.js updateCosts` writes only cost states: all consumption
totals, volumes, HT/NT buckets, meter readings and the sensor cache survive
unchanged. -/
theorem mainUpdateCosts_frame (ty : UType) (cfg : Config) (clk : Clock)
    (s s' : UState) (h : mainUpdateCosts ty cfg clk s = .ok s') :
    s'.daily = s.daily ∧ s'.monthly = s.monthly ∧ s'.yearly = s.yearly ∧
    s'.dailyVolume = s.dailyVolume ∧ s'.monthlyVolume = s.monthlyVolume ∧
    s'.yearlyVolume = s.yearlyVolume ∧ s'.dailyHT = s.dailyHT ∧ s'.dailyNT = s.dailyNT ∧
    s'.monthlyHT = s.monthlyHT ∧ s'.monthlyNT = s.monthlyNT ∧ s'.yearlyHT = s.yearlyHT ∧
    s'.yearlyNT = s.yearlyNT ∧ s'.lastSensorValue = s.lastSensorValue ∧
    s'.meterReading = s.meterReading ∧ s'.meterReadingVolume = s.meterReadingVolume := by
  simp only [mainUpdateCosts] at h
  split at h
  · cases h
    simp
  · rcases hya : yearlyWithAdjustment ty cfg s with msg | yv
    · rw [hya] at h
      exact Except.noConfusion h
    · simp only [hya] at h
      rcases hcc : consumptionCosts ty cfg s s.daily s.monthly yv s.adjustment with
        msg | ⟨c1, c2, c3, t⟩
      · rw [hcc] at h
        exact Except.noConfusion h
      · simp only [hcc] at h
        have hf := consumptionCosts_frame ty cfg s s.daily s.monthly yv s.adjustment
          c1 c2 c3 t hcc
        split at h <;> (cases h; simp_all)

/-- Fixture for the first C4 scenario: a fixed monthly charge of 152.64 €,
a 150 € monthly pre-payment, one elapsed contract month. -/
def cfgA : Config :=
  { cfg0 with
    preis := 3/10
    grundgebuehr := 15264/100
    abschlag := 150
    contractStart := some "06.01.2026" }

/-- Fixture for the second C4 scenario: 890 € accumulated cost against
900 € paid. -/
def cfgB : Config :=
  { cfg0 with
    preis := 3/10
    grundgebuehr := 890
    abschlag := 900
    contractStart := some "06.01.2026" }

/-- C4: whenever `updateCosts` actually recomputes (it is not skipped) and a
monthly pre-payment `> 0` is configured, it writes
`paidTotal = prepayment × monthsElapsed` and
`balance = totalYearlyCost − paidTotal` (rounded to 2 decimals); without a
positive pre-payment it writes 0 for both.  In the concrete scenarios,
total cost 152.64 € against 150 € paid yields balance +2.64 €, and 890 €
against 900 € paid yields balance −10 €. -/
theorem claim_C4_abschlag_balance :
    (∀ (ty : UType) (cfg : Config) (clk : Clock) (s s' : UState),
      ¬(cfg.preis = 0 ∧ cfg.htNtEnabled = false) →
      updateCosts ty cfg clk s = .ok s' →
      (0 < cfg.abschlag →
        ∃ T, s'.costTotalYearly = roundToDecimals T 2 ∧
          s'.costPaidTotal =
            roundToDecimals (cfg.abschlag * (bmMonthsSinceContract cfg clk s : ℚ)) 2 ∧
          s'.costBalance =
            roundToDecimals (T - cfg.abschlag * (bmMonthsSinceContract cfg clk s : ℚ)) 2) ∧
      (¬0 < cfg.abschlag → s'.costPaidTotal = 0 ∧ s'.costBalance = 0))
    ∧ (updateCosts .electricity cfgA clk26 st0).map
        (fun s => (s.costTotalYearly, s.costPaidTotal, s.costBalance)) =
        .ok (15264/100, 150, 264/100)
    ∧ (updateCosts .electricity cfgB clk26 st0).map
        (fun s => (s.costPaidTotal, s.costBalance)) = .ok (900, -10) := by
  refine ⟨?_, ?_, ?_⟩
  · intro ty cfg clk s s' hskip h
    simp only [updateCosts] at h
    rw [if_neg hskip] at h
    rcases hya : yearlyWithAdjustment ty cfg s with msg | yv
    · rw [hya] at h
      exact Except.noConfusion h
    · simp only [hya] at h
      rcases hcc : consumptionCosts ty cfg s s.daily s.monthly yv s.adjustment with
        msg | ⟨c1, c2, c3, t⟩
      · rw [hcc] at h
        exact Except.noConfusion h
      · simp only [hcc] at h
        split at h
        · rename_i habs
          cases h
          refine ⟨fun _ => ⟨c3 + (cfg.grundgebuehr * (bmMonthsSinceContract cfg clk s : ℚ) +
            cfg.jahresgebuehr / 12 * (bmMonthsSinceContract cfg clk s : ℚ)), rfl, rfl, rfl⟩,
            fun hn => absurd habs hn⟩
        · rename_i habs
          cases h
          exact ⟨fun hp => absurd hp habs, fun _ => ⟨rfl, rfl⟩⟩
  · have hm : bmMonthsSinceContract cfgA clk26 st0 = 1 := by decide
    have h1 : cfgA.preis = (3/10 : ℚ) := rfl
    have h2 : cfgA.htNtEnabled = false := rfl
    have h3 : cfgA.abschlag = (150 : ℚ) := rfl
    have h4 : cfgA.grundgebuehr = (15264/100 : ℚ) := rfl
    have h5 : cfgA.jahresgebuehr = (0 : ℚ) := rfl
    have h6 : st0.adjustment = (0 : ℚ) := rfl
    have h7 : st0.daily = (0 : ℚ) := rfl
    have h8 : st0.monthly = (0 : ℚ) := rfl
    have h9 : st0.yearly = (0 : ℚ) := rfl
    simp only [updateCosts, yearlyWithAdjustment, consumptionCosts, calculateCost, jsOr0, hm,
      h1, h2, h3, h4, h5, h6, h7, h8, h9, Except.map]
    norm_num [roundToDecimals, jsRound]
  · have hm : bmMonthsSinceContract cfgB clk26 st0 = 1 := by decide
    have h1 : cfgB.preis = (3/10 : ℚ) := rfl
    have h2 : cfgB.htNtEnabled = false := rfl
    have h3 : cfgB.abschlag = (900 : ℚ) := rfl
    have h4 : cfgB.grundgebuehr = (890 : ℚ) := rfl
    have h5 : cfgB.jahresgebuehr = (0 : ℚ) := rfl
    have h6 : st0.adjustment = (0 : ℚ) := rfl
    have h7 : st0.daily = (0 : ℚ) := rfl
    have h8 : st0.monthly = (0 : ℚ) := rfl
    have h9 : st0.yearly = (0 : ℚ) := rfl
    simp only [updateCosts, yearlyWithAdjustment, consumptionCosts, calculateCost, jsOr0, hm,
      h1, h2, h3, h4, h5, h6, h7, h8, h9, Except.map]
    norm_num [roundToDecimals, jsRound]

/-- With no manual adjustment pending and non-negative stored totals, the
cost recompute invoked from the sensor handler cannot throw. -/
theorem mainUpdateCosts_ok (ty : UType) (cfg : Config) (clk : Clock) (s : UState)
    (hadj : s.adjustment = 0) (hd : 0 ≤ s.daily) (hm : 0 ≤ s.monthly) (hy : 0 ≤ s.yearly) :
    ∃ s', mainUpdateCosts ty cfg clk s = .ok s' := by
  by_cases hp : cfg.preis = 0
  · exact ⟨s, by simp [mainUpdateCosts, hp]⟩
  · have hya : yearlyWithAdjustment ty cfg s = .ok s.yearly := by
      simp [yearlyWithAdjustment, hadj]
    have hd' : ¬s.daily < 0 := not_lt.mpr hd
    have hm' : ¬s.monthly < 0 := not_lt.mpr hm
    have hy' : ¬s.yearly < 0 := not_lt.mpr hy
    have hcc : ∃ q, consumptionCosts ty cfg s s.daily s.monthly s.yearly s.adjustment =
        .ok q := by
      rcases hcc0 : consumptionCosts ty cfg s s.daily s.monthly s.yearly s.adjustment with m | q
      · by_cases hh : cfg.htNtEnabled
        · simp [consumptionCosts, hh, hadj] at hcc0
        · simp [consumptionCosts, hh, calculateCost, hd', hm', hy'] at hcc0
      · exact ⟨q, rfl⟩
    obtain ⟨⟨c1, c2, c3, t⟩, hcc⟩ := hcc
    rcases hres : mainUpdateCosts ty cfg clk s with m | s'
    · exfalso
      simp only [mainUpdateCosts] at hres
      rw [if_neg hp] at hres
      simp only [hya, hcc] at hres
      split at hres <;> exact Except.noConfusion hres
    · exact ⟨s', rfl⟩

/-- The meter-reading/cache step changes only the meter states and the cache:
all totals and the billing bookkeeping keep their values, and the cache now
holds the corrected energy value. -/
theorem preCostState_fields (ty : UType) (cfg : Config) (s : UState) (v e : ℚ) :
    (preCostState ty cfg s v e).daily = s.daily ∧
    (preCostState ty cfg s v e).monthly = s.monthly ∧
    (preCostState ty cfg s v e).yearly = s.yearly ∧
    (preCostState ty cfg s v e).dailyVolume = s.dailyVolume ∧
    (preCostState ty cfg s v e).monthlyVolume = s.monthlyVolume ∧
    (preCostState ty cfg s v e).yearlyVolume = s.yearlyVolume ∧
    (preCostState ty cfg s v e).dailyHT = s.dailyHT ∧
    (preCostState ty cfg s v e).dailyNT = s.dailyNT ∧
    (preCostState ty cfg s v e).monthlyHT = s.monthlyHT ∧
    (preCostState ty cfg s v e).monthlyNT = s.monthlyNT ∧
    (preCostState ty cfg s v e).yearlyHT = s.yearlyHT ∧
    (preCostState ty cfg s v e).yearlyNT = s.yearlyNT ∧
    (preCostState ty cfg s v e).lastSensorValue = some e ∧
    (preCostState ty cfg s v e).adjustment = s.adjustment := by
  cases ty <;> simp [preCostState]

/-- Flat-price configuration for the C2 counterexample and witness. -/
def cfgW2 : Config := { cfg0 with preis := 1/4 }

/-- State for the C2 witness: 100 kWh cached, 5 kWh accrued today. -/
def stW2 : UState := { st0 with lastSensorValue := some 100, daily := 5 }

/-- State fixture for the C2 counterexample: 100 kWh cached and a pending
manual adjustment of −5 units. -/
def stC2x : UState := { st0 with lastSensorValue := some 100, adjustment := -5 }

/-- Counterexample for C2: with a pending negative manual adjustment, a
decreased reading (corrected energy 90 against cached 100) reaches the
skip-path cost recompute, where `calculateCost` is applied to the adjusted
negative yearly total and throws — the handler does crash on a
spec-sanctioned state, refuting the claim's unconditional "does not crash".
(A negative gas adjustment crashes the same path through
`convertGasM3ToKWh`.) -/
theorem claim_C2_counterexample :
    sensorEnergy .electricity cfgW2 90 = .ok 90 ∧
    stC2x.lastSensorValue = some 100 ∧ (90 : ℚ) ≤ 100 ∧
    handleSensorUpdate .electricity cfgW2 clk26 stC2x 90 =
      .error "TypeError: Consumption must be a non-negative number" := by
  refine ⟨by simp [sensorEnergy, correctedValue, cfgW2, cfg0], rfl, by norm_num, ?_⟩
  norm_num [handleSensorUpdate, sensorEnergy, correctedValue, preCostState, mainUpdateCosts,
    yearlyWithAdjustment, consumptionCosts, calculateCost, cfgW2, cfg0, stC2x, st0]

/-- C2 (amended): on a first or non-increasing reading the handler updates
the cache to the new value and returns exactly the result of the cost
recompute applied to the cache-updated state (so a cost recompute is always
triggered and no delta code runs); whenever that recompute returns a state,
every running total and HT/NT bucket is unchanged and the cache holds the
new value; and the handler cannot throw except when the recompute itself
throws — which is impossible once no manual adjustment is pending and the
stored totals are non-negative. -/
theorem claim_C2_decrease_suppression (ty : UType) (cfg : Config) (clk : Clock)
    (s : UState) (v e : ℚ)
    (hv : ¬v < 0) (hE : sensorEnergy ty cfg v = .ok e)
    (hskip : s.lastSensorValue = none ∨ ∃ l, s.lastSensorValue = some l ∧ e ≤ l) :
    handleSensorUpdate ty cfg clk s v = mainUpdateCosts ty cfg clk (preCostState ty cfg s v e)
    ∧ (∀ s', mainUpdateCosts ty cfg clk (preCostState ty cfg s v e) = .ok s' →
        s'.lastSensorValue = some e ∧
        s'.daily = s.daily ∧ s'.monthly = s.monthly ∧ s'.yearly = s.yearly ∧
        s'.dailyVolume = s.dailyVolume ∧ s'.monthlyVolume = s.monthlyVolume ∧
        s'.yearlyVolume = s.yearlyVolume ∧
        s'.dailyHT = s.dailyHT ∧ s'.dailyNT = s.dailyNT ∧
        s'.monthlyHT = s.monthlyHT ∧ s'.monthlyNT = s.monthlyNT ∧
        s'.yearlyHT = s.yearlyHT ∧ s'.yearlyNT = s.yearlyNT)
    ∧ (s.adjustment = 0 → 0 ≤ s.daily → 0 ≤ s.monthly → 0 ≤ s.yearly →
        ∃ s', handleSensorUpdate ty cfg clk s v = .ok s') := by
  have hrun : handleSensorUpdate ty cfg clk s v =
      mainUpdateCosts ty cfg clk (preCostState ty cfg s v e) := by
    simp only [handleSensorUpdate]
    rw [if_neg hv]
    simp only [hE]
    rcases hskip with hnone | ⟨l, hl, hle⟩
    · simp only [hnone]
    · simp only [hl]
      rw [if_pos hle]
  obtain ⟨p1, p2, p3, p4, p5, p6, p7, p8, p9, p10, p11, p12, p13, p14⟩ :=
    preCostState_fields ty cfg s v e
  refine ⟨hrun, ?_, ?_⟩
  · intro s' hok
    obtain ⟨f1, f2, f3, f4, f5, f6, f7, f8, f9, f10, f11, f12, f13, f14, f15⟩ :=
      mainUpdateCosts_frame ty cfg clk _ _ hok
    exact ⟨by rw [f13, p13], by rw [f1, p1], by rw [f2, p2], by rw [f3, p3], by rw [f4, p4],
      by rw [f5, p5], by rw [f6, p6], by rw [f7, p7], by rw [f8, p8], by rw [f9, p9],
      by rw [f10, p10], by rw [f11, p11], by rw [f12, p12]⟩
  · intro hadj hd hm hy
    obtain ⟨s', hok⟩ := mainUpdateCosts_ok ty cfg clk (preCostState ty cfg s v e)
      (by rw [p14, hadj]) (by rw [p1]; exact hd) (by rw [p2]; exact hm) (by rw [p3]; exact hy)
    exact ⟨s', by rw [hrun]; exact hok⟩

/-- Witness for C2: a reading of 90 against a cached 100 (no pending
adjustment) updates the cache, succeeds, and leaves the daily total at 5. -/
theorem claim_C2_witness :
    ∃ s', handleSensorUpdate .electricity cfgW2 clk26 stW2 90 = .ok s' ∧
      s'.lastSensorValue = some 90 ∧ s'.daily = 5 := by
  have hc := claim_C2_decrease_suppression .electricity cfgW2 clk26 stW2 90 90
    (by norm_num) (by simp [sensorEnergy, correctedValue, cfgW2, cfg0])
    (Or.inr ⟨100, rfl, by norm_num⟩)
  obtain ⟨s', hok⟩ := hc.2.2 rfl
    (by rw [show stW2.daily = (5 : ℚ) from rfl]; norm_num)
    (by rw [show stW2.monthly = (0 : ℚ) from rfl])
    (by rw [show stW2.yearly = (0 : ℚ) from rfl])
  have hmu : mainUpdateCosts .electricity cfgW2 clk26
      (preCostState .electricity cfgW2 stW2 90 90) = .ok s' := by
    rw [← hc.1]
    exact hok
  obtain ⟨hcache, hdaily, -⟩ := hc.2.1 s' hmu
  exact ⟨s', hok, hcache, by rw [hdaily]; rfl⟩

/-- C1: on the delta path of `handleSensorUpdate` (a value was cached and the
corrected energy strictly exceeds it), a configured `initialReading > 0`
makes the yearly total be recomputed from scratch as
`max(0, correctedReading − initialReading)` (for gas the difference is taken
in m³, also written to `yearlyVolume`, and then converted to kWh) rather
than accumulated, while without a baseline the yearly total accumulates the
positive delta exactly like daily/monthly. -/
theorem claim_C1_yearly_baseline (ty : UType) (cfg : Config) (clk : Clock) (s : UState)
    (v e l : ℚ) (s' : UState)
    (hv : ¬v < 0) (hE : sensorEnergy ty cfg v = .ok e)
    (hl : s.lastSensorValue = some l) (hlt : l < e)
    (hok : handleSensorUpdate ty cfg clk s v = .ok s') :
    (0 < cfg.initialReading →
      (ty = .gas →
        s'.yearlyVolume =
          roundToDecimals (max 0 (correctedValue cfg v - cfg.initialReading)) 2 ∧
        s'.yearly = roundToDecimals
          (max 0 (correctedValue cfg v - cfg.initialReading) *
            effBrennwert cfg * effZahl cfg) 2) ∧
      (ty ≠ .gas → s'.yearly = roundToDecimals (max 0 (e - cfg.initialReading)) 2)) ∧
    (¬0 < cfg.initialReading → s'.yearly = roundToDecimals (s.yearly + (e - l)) 2) := by
  cases ty with
  | electricity =>
    simp only [handleSensorUpdate] at hok
    rw [if_neg hv] at hok
    simp only [hE, hl] at hok
    rw [if_neg (not_le.mpr hlt)] at hok
    by_cases hinit : 0 < cfg.initialReading
    · simp only [hinit, if_true] at hok
      split at hok
      · exact Except.noConfusion hok
      · rename_i s6 heq
        have hf := mainUpdateCosts_frame _ _ _ _ _ heq
        cases hok
        refine ⟨fun _ => ⟨fun hg => absurd hg (by decide), fun _ => ?_⟩,
          fun hn => absurd hinit hn⟩
        exact hf.2.2.1
    · simp only [hinit, if_false] at hok
      split at hok
      · exact Except.noConfusion hok
      · rename_i s6 heq
        have hf := mainUpdateCosts_frame _ _ _ _ _ heq
        cases hok
        refine ⟨fun hp => absurd hp hinit, fun _ => ?_⟩
        rw [hf.2.2.1]
        simp [apply_ite UState.yearly, preCostState]
  | water =>
    simp only [handleSensorUpdate] at hok
    rw [if_neg hv] at hok
    simp only [hE, hl] at hok
    rw [if_neg (not_le.mpr hlt)] at hok
    by_cases hinit : 0 < cfg.initialReading
    · simp only [hinit, if_true] at hok
      split at hok
      · exact Except.noConfusion hok
      · rename_i s6 heq
        have hf := mainUpdateCosts_frame _ _ _ _ _ heq
        cases hok
        refine ⟨fun _ => ⟨fun hg => absurd hg (by decide), fun _ => ?_⟩,
          fun hn => absurd hinit hn⟩
        exact hf.2.2.1
    · simp only [hinit, if_false] at hok
      split at hok
      · exact Except.noConfusion hok
      · rename_i s6 heq
        have hf := mainUpdateCosts_frame _ _ _ _ _ heq
        cases hok
        refine ⟨fun hp => absurd hp hinit, fun _ => ?_⟩
        rw [hf.2.2.1]
        simp [apply_ite UState.yearly, preCostState]
  | gas =>
    simp only [handleSensorUpdate] at hok
    rw [if_neg hv] at hok
    simp only [hE, hl] at hok
    rw [if_neg (not_le.mpr hlt)] at hok
    simp only [sensorEnergy] at hE
    rcases hcv : convertGasM3ToKWh (correctedValue cfg v) (effBrennwert cfg) (effZahl cfg) with
      m | e0
    · rw [hcv] at hE
      exact Except.noConfusion hE
    · have hguard : ¬(correctedValue cfg v < 0 ∨ effBrennwert cfg ≤ 0 ∨ effZahl cfg ≤ 0 ∨
          1 < effZahl cfg) := by
        intro hg
        unfold convertGasM3ToKWh at hcv
        rw [if_pos hg] at hcv
        exact Except.noConfusion hcv
      by_cases hinit : 0 < cfg.initialReading
      · have hconv2 : convertGasM3ToKWh (max 0 (correctedValue cfg v - cfg.initialReading))
            (effBrennwert cfg) (effZahl cfg) =
            .ok (max 0 (correctedValue cfg v - cfg.initialReading) * effBrennwert cfg *
              effZahl cfg) := by
          unfold convertGasM3ToKWh
          rw [if_neg]
          push_neg at hguard ⊢
          exact ⟨le_max_left 0 _, hguard.2.1, hguard.2.2.1, hguard.2.2.2⟩
        simp only [hinit, if_true, hconv2, Except.map] at hok
        split at hok
        · exact Except.noConfusion hok
        · rename_i s6 heq
          have hf := mainUpdateCosts_frame _ _ _ _ _ heq
          cases hok
          refine ⟨fun _ => ⟨fun _ => ⟨?_, ?_⟩, fun hne => absurd rfl hne⟩,
            fun hn => absurd hinit hn⟩
          · exact hf.2.2.2.2.2.1
          · exact hf.2.2.1
      · simp only [hinit, if_false] at hok
        split at hok
        · exact Except.noConfusion hok
        · rename_i s6 heq
          have hf := mainUpdateCosts_frame _ _ _ _ _ heq
          cases hok
          refine ⟨fun hp => absurd hp hinit, fun _ => ?_⟩
          rw [hf.2.2.1]
          simp [apply_ite UState.yearly, preCostState]

/-- Electricity configuration with a 50-unit initial-reading baseline for the
C1 witness. -/
def cfgW1 : Config := { cfg0 with initialReading := 50 }

/-- State for the C1 witness: 100 kWh cached. -/
def stW1 : UState := { st0 with lastSensorValue := some 100 }

/-- Witness for C1: reading 120 against baseline 50 recomputes the yearly
total to 70. -/
theorem claim_C1_witness :
    ∃ s', handleSensorUpdate .electricity cfgW1 clk26 stW1 120 = .ok s' ∧ s'.yearly = 70 := by
  have hev : ∃ s', handleSensorUpdate .electricity cfgW1 clk26 stW1 120 = .ok s' := by
    rcases hres : handleSensorUpdate .electricity cfgW1 clk26 stW1 120 with m | t
    · norm_num [handleSensorUpdate, sensorEnergy, correctedValue, mainUpdateCosts,
        cfgW1, cfg0, stW1, st0] at hres
      exact Except.noConfusion hres
    · exact ⟨t, rfl⟩
  obtain ⟨s', hok⟩ := hev
  have hC1 := claim_C1_yearly_baseline .electricity cfgW1 clk26 stW1 120 120 100 s'
    (by norm_num) (by simp [sensorEnergy, correctedValue, cfgW1, cfg0]) rfl (by norm_num) hok
  have hy := (hC1.1 (by rw [show cfgW1.initialReading = (50 : ℚ) from rfl]; norm_num)).2
    (by decide)
  rw [show cfgW1.initialReading = (50 : ℚ) from rfl] at hy
  refine ⟨s', hok, ?_⟩
  rw [hy]
  norm_num [roundToDecimals, jsRound]

/-- Witness for C4: the 152.64 € / 150 € scenario run through the Abschlag
rule of the theorem. -/
theorem claim_C4_witness :
    ∃ s', updateCosts .electricity cfgA clk26 st0 = .ok s' ∧
      ∃ T, s'.costTotalYearly = roundToDecimals T 2 ∧
        s'.costPaidTotal =
          roundToDecimals (cfgA.abschlag * (bmMonthsSinceContract cfgA clk26 st0 : ℚ)) 2 ∧
        s'.costBalance =
          roundToDecimals (T - cfgA.abschlag * (bmMonthsSinceContract cfgA clk26 st0 : ℚ)) 2 := by
  rcases hh : updateCosts .electricity cfgA clk26 st0 with m | s'
  · have h2 := claim_C4_abschlag_balance.2.1
    simp only [hh, Except.map] at h2
    exact Except.noConfusion h2
  · refine ⟨s', rfl, ?_⟩
    exact (claim_C4_abschlag_balance.1 .electricity cfgA clk26 st0 s'
      (by
        rintro ⟨hp, -⟩
        rw [show cfgA.preis = (3/10 : ℚ) from rfl] at hp
        norm_num at hp)
      hh).1 (by rw [show cfgA.abschlag = (150 : ℚ) from rfl]; norm_num)
